import Mathlib

/-!
Shallow embedding of the EmpathAI frontend emotion pipeline.

Sources embedded here:
- `frontend/lib/emotionUtils.ts` (`emotionColors`, `therapyTechniques`,
  `getTechniquesForEmotion`, `formatEmotionData`, `getDominantEmotion`),
- `frontend/components/emotion/EmotionVisualizer.tsx` (`EMOTION_COLORS`,
  `defaultEmotions`, `formatEmotions`, `getTherapyTips`),
- the `TherapySession` component (`sendMessage`, `analyzeEmotions`) and the
  `HomePage` component (`analyzeEmotions`).

Modelling conventions: JavaScript numbers are modelled as rationals; a
`Record<string, number>` is an association list in insertion order; an
`axios` call is an explicit parameter holding the backend outcome
(`none` = the call threw).  `Math.round` is Mathlib `round` (both map `x`
to `⌊x + 1/2⌋`).  JS `trim` / `toLowerCase` are modelled on the ASCII
range, which the source data lives in.
-/

/-- Whitespace characters recognised by the model of JS `String.prototype.trim`. -/
def isJsWhitespace (c : Char) : Bool :=
  c == ' ' || c == '\t' || c == '\n' || c == '\r' || c == '\x0b' || c == '\x0c'

/-- Model of JS `String.prototype.trim`: drop whitespace from both ends. -/
def jsTrim (s : String) : String :=
  ⟨((s.data.dropWhile isJsWhitespace).reverse.dropWhile isJsWhitespace).reverse⟩

/-- Model of JS `String.prototype.toLowerCase` on ASCII data. -/
def jsToLowerCase (s : String) : String :=
  ⟨s.data.map Char.toLower⟩

/-- Model of the capitalisation `emotion.charAt(0).toUpperCase() + emotion.slice(1)`. -/
def jsCapitalize (s : String) : String :=
  match s.data with
  | [] => ""
  | c :: cs => ⟨c.toUpper :: cs⟩

/-- One displayed emotion row (`EmotionData` in the frontend). -/
structure EmotionData where
  emotion : String
  percentage : ℤ
  color : String
deriving DecidableEq

/-- `emotionColors` from `frontend/lib/emotionUtils.ts`, keys in source order. -/
def emotionColors : List (String × String) :=
  [("happy", "#10B981"), ("sad", "#6B7280"), ("angry", "#EF4444"),
   ("disgust", "#8B5CF6"), ("fear", "#7C3AED"), ("surprise", "#F59E0B"),
   ("neutral", "#4F46E5")]

/-- `EMOTION_COLORS` from `frontend/components/emotion/EmotionVisualizer.tsx`. -/
def EMOTION_COLORS : List (String × String) :=
  [("happy", "#10B981"), ("joy", "#10B981"), ("sad", "#6B7280"),
   ("sadness", "#6B7280"), ("angry", "#EF4444"), ("anger", "#EF4444"),
   ("disgust", "#8B5CF6"), ("fear", "#7C3AED"), ("surprised", "#F59E0B"),
   ("surprise", "#F59E0B"), ("neutral", "#4F46E5"), ("calm", "#4F46E5")]

/-- Key lookup in a color table with the neutral color as fallback; this is the
shape of both `normalizedEmotion in emotionColors ? ... : emotionColors.neutral`
and `EMOTION_COLORS[emotion.toLowerCase()] || '#4F46E5'` (both fallbacks are
the string `#4F46E5`). -/
def lookupColor (table : List (String × String)) (key : String) : String :=
  match table.find? (fun p => p.1 == key) with
  | some p => p.2
  | none => "#4F46E5"

/-- `TherapyTechnique` from `frontend/lib/emotionUtils.ts`. -/
structure TherapyTechnique where
  id : String
  name : String
  description : String
  forEmotions : List String
  steps : List String
deriving DecidableEq

/-- The static `therapyTechniques` array from `frontend/lib/emotionUtils.ts`. -/
def therapyTechniques : List TherapyTechnique :=
  [{ id := "deep-breathing",
     name := "Deep Breathing Exercise",
     description := "A simple technique to reduce stress and anxiety by controlling your breath",
     forEmotions := ["angry", "fear", "sad", "disgust"],
     steps := ["Find a comfortable position and close your eyes",
               "Breathe in slowly through your nose for a count of 4",
               "Hold your breath for a count of 2",
               "Exhale slowly through your mouth for a count of 6",
               "Repeat for 5-10 cycles"] },
   { id := "gratitude-practice",
     name := "Gratitude Practice",
     description := "Focusing on things you are grateful for to improve mood and perspective",
     forEmotions := ["sad", "angry", "disgust"],
     steps := ["Take a moment to reflect on your day",
               "Identify three things you are grateful for, no matter how small",
               "For each item, consider why you are grateful for it",
               "Notice how acknowledging these positives affects your mood"] },
   { id := "grounding-54321",
     name := "5-4-3-2-1 Grounding Technique",
     description := "A sensory awareness exercise to manage anxiety and bring focus to the present",
     forEmotions := ["fear", "angry", "sad"],
     steps := ["Acknowledge 5 things you can see",
               "Acknowledge 4 things you can touch/feel",
               "Acknowledge 3 things you can hear",
               "Acknowledge 2 things you can smell",
               "Acknowledge 1 thing you can taste"] },
   { id := "positive-reframing",
     name := "Positive Reframing",
     description := "Changing perspective by finding the positive aspects in challenging situations",
     forEmotions := ["sad", "fear", "angry", "disgust"],
     steps := ["Identify a negative thought or situation",
               "Challenge the thought: Is it entirely true? Are you seeing the whole picture?",
               "Find a more balanced or positive interpretation",
               "Focus on what you have learned or how you have grown from the experience"] }]

/-- `getTechniquesForEmotion` from `frontend/lib/emotionUtils.ts`: lowercase the
argument, then keep the techniques listing it in `forEmotions`. -/
def getTechniquesForEmotion (emotionName : String) : List TherapyTechnique :=
  let emotion := jsToLowerCase emotionName
  therapyTechniques.filter (fun t => t.forEmotions.contains emotion)

/-- `formatEmotionData` from `frontend/lib/emotionUtils.ts`: keep the label,
round the score times 100, and look the lowercased label up in
`emotionColors` falling back to the neutral color. -/
def formatEmotionData (emotions : List (String × ℚ)) : List EmotionData :=
  emotions.map fun p =>
    { emotion := p.1,
      percentage := round (p.2 * (100 : ℚ)),
      color := lookupColor emotionColors (jsToLowerCase p.1) }

/-- The update applied per entry by the `forEach` in `getDominantEmotion`:
replace the running `(maxScore, dominant)` pair when the score is strictly
greater. -/
def dominantStep (acc : ℚ × String) (p : String × ℚ) : ℚ × String :=
  if acc.1 < p.2 then (p.2, p.1) else acc

/-- `getDominantEmotion` from `frontend/lib/emotionUtils.ts`: fold over the
entries in insertion order starting from `maxScore = 0`, `dominant = 'neutral'`. -/
def getDominantEmotion (emotions : List (String × ℚ)) : String :=
  (emotions.foldl dominantStep ((0 : ℚ), "neutral")).2

/-- The `defaultEmotions` display list of the `EmotionVisualizer` component
(`frontend/components/emotion/EmotionVisualizer.tsx`). -/
def defaultDisplayEmotions : List EmotionData :=
  [{ emotion := "Neutral", percentage := 65, color := "#4F46E5" },
   { emotion := "Happy", percentage := 15, color := "#10B981" },
   { emotion := "Sad", percentage := 10, color := "#6B7280" },
   { emotion := "Angry", percentage := 5, color := "#EF4444" },
   { emotion := "Surprised", percentage := 5, color := "#F59E0B" }]

/-- The per-entry arrow function inside `formatEmotions`: capitalise the
label, round the score times 100, colour via `EMOTION_COLORS` with the
neutral fallback. -/
def formatEmotionEntry (p : String × ℚ) : EmotionData :=
  { emotion := jsCapitalize p.1,
    percentage := round (p.2 * (100 : ℚ)),
    color := lookupColor EMOTION_COLORS (jsToLowerCase p.1) }

/-- `formatEmotions` from the `EmotionVisualizer` component: default on a
missing or empty mapping, otherwise map `formatEmotionEntry`, sort by
descending percentage (JS stable sort, modelled by `mergeSort`) and keep the
top five, defaulting again if that list is empty. -/
def formatEmotions (rawData : Option (List (String × ℚ))) : List EmotionData :=
  match rawData with
  | none => defaultDisplayEmotions
  | some raw =>
    if raw.isEmpty then defaultDisplayEmotions
    else
      let formatted :=
        ((raw.map formatEmotionEntry).mergeSort
          (fun a b => decide (b.percentage ≤ a.percentage))).take 5
      if formatted.isEmpty then defaultDisplayEmotions else formatted

/-- The `emotionTips` table inside `getTherapyTips` of the `EmotionVisualizer`
component, keys in source order. -/
def emotionTips : List (String × List String) :=
  [("Neutral", ["Practice regular mindfulness meditation",
                "Set goals for personal growth",
                "Engage in activities that bring you peace"]),
   ("Happy", ["Journal about what brought you joy today",
              "Share your positive feelings with others",
              "Build on this energy to tackle challenges"]),
   ("Sad", ["Allow yourself to feel without judgment",
            "Connect with a supportive friend or family member",
            "Try gentle physical activity like walking"]),
   ("Angry", ["Take deep breaths to calm your nervous system",
              "Try counting to 10 before responding",
              "Channel the energy into productive activities"]),
   ("Fear", ["Ground yourself by naming 5 things you can see",
             "Challenge catastrophic thinking patterns",
             "Practice progressive muscle relaxation"]),
   ("Surprised", ["Take a moment to process the unexpected",
                  "Consider different perspectives of the situation",
                  "Adapt your plans as needed"]),
   ("Disgust", ["Identify the specific trigger for your feeling",
                "Practice acceptance of uncomfortable emotions",
                "Reframe your thinking about the situation"])]

/-- `getTherapyTips` from the `EmotionVisualizer` component:
`emotionTips[emotion] || emotionTips['Neutral']` (a JS object lookup whose
fallback is the lookup of the `Neutral` key). -/
def getTherapyTips (emotion : String) : List String :=
  match emotionTips.find? (fun p => p.1 == emotion) with
  | some p => p.2
  | none =>
    match emotionTips.find? (fun p => p.1 == "Neutral") with
    | some p => p.2
    | none => []

/-- The default distribution `{neutral: 0.9, calm: 0.1}` used by both
`analyzeEmotions` functions and as the initial `currentEmotions` state
(named `defaultEmotions` in the `TherapySession` source). -/
def defaultEmotions : List (String × ℚ) :=
  [("neutral", 9 / 10), ("calm", 1 / 10)]

/-- The sender tag of a chat `Message`. -/
inductive Sender where
  | user
  | ai
deriving DecidableEq

/-- `Message` from the `TherapySession` component. -/
structure Message where
  id : String
  text : String
  sender : Sender
  emotions : Option (List (String × ℚ)) := none
deriving DecidableEq

/-- The successful payload of an analysis request. -/
structure BackendResponse where
  response_text : String
  detected_emotions : List (String × ℚ)
deriving DecidableEq

/-- The component state read and written by `sendMessage` in the
`TherapySession` component: the message list, the text box contents, the
pending audio recording and the loading flag. -/
structure SessionState where
  messages : List Message
  inputText : String
  audioBlob : Option (List Nat)
  loading : Bool
deriving DecidableEq

/-- The fixed apology appended when the analysis request fails. -/
def apologyText : String :=
  "I\x27m sorry, I couldn\x27t process your message. Please try again."

namespace TherapySession

/-- The guard of `sendMessage`:
`if ((!inputText.trim() && !audioBlob) || loading) return;` holds exactly
when this is `false`. -/
def canSend (st : SessionState) : Bool :=
  !((jsTrim st.inputText == "" && st.audioBlob.isNone) || st.loading)

/-- `sendMessage` from the `TherapySession` component (`part_007`; the
variant in `part_001` has the same guard and append logic).  `backend` is
the outcome of the analysis request: `none` models the `axios` call
throwing.  Returns the new state and whether a request was issued.  On the
error path `setAudioBlob(null)` never runs, so the recording is kept. -/
def sendMessage (st : SessionState) (now : Nat) (backend : Option BackendResponse) :
    SessionState × Bool :=
  if canSend st then
    let userMsg : Message :=
      { id := toString now, text := jsTrim st.inputText, sender := .user }
    match backend with
    | some r =>
      ({ messages := st.messages ++ [userMsg,
           { id := toString (now + 1), text := r.response_text, sender := .ai,
             emotions := some r.detected_emotions }],
         inputText := "", audioBlob := none, loading := false }, true)
    | none =>
      ({ messages := st.messages ++ [userMsg,
           { id := toString (now + 1), text := apologyText, sender := .ai }],
         inputText := "", audioBlob := st.audioBlob, loading := false }, true)
  else (st, false)

/-- The debounced `analyzeEmotions` of the `TherapySession` component.
`backend = none` models the request throwing, `some none` a response
without usable `detected_emotions`, `some (some d)` a response carrying
`d`.  Returns the new `currentEmotions` and whether a request was issued. -/
def analyzeEmotions (text : String)
    (backend : Option (Option (List (String × ℚ)))) : List (String × ℚ) × Bool :=
  if jsTrim text == "" then (defaultEmotions, false)
  else
    match backend with
    | none => (defaultEmotions, true)
    | some none => (defaultEmotions, true)
    | some (some detected) =>
      if detected.isEmpty then ([("neutral", 1)], true) else (detected, true)

end TherapySession

namespace HomePage

/-- The debounced `analyzeEmotions` of the `HomePage` component (`part_006`):
same empty-input short-circuit, and on request failure the default is
restored. -/
def analyzeEmotions (text : String)
    (backend : Option (List (String × ℚ))) : List (String × ℚ) × Bool :=
  if jsTrim text == "" then (defaultEmotions, false)
  else
    match backend with
    | none => (defaultEmotions, true)
    | some detected => (detected, true)

end HomePage

/-! Helper lemmas about the string model. -/

theorem dropWhile_eq_nil_of_all {p : Char → Bool} :
    ∀ {l : List Char}, (∀ c ∈ l, p c = true) → l.dropWhile p = []
  | [], _ => rfl
  | c :: l, h => by
    rw [List.dropWhile_cons_of_pos (h c (List.mem_cons_self c l))]
    exact dropWhile_eq_nil_of_all (fun c hc => h c (List.mem_cons_of_mem _ hc))

theorem jsTrim_eq_empty {s : String} (h : ∀ c ∈ s.data, isJsWhitespace c = true) :
    jsTrim s = "" := by
  unfold jsTrim
  rw [dropWhile_eq_nil_of_all h]
  rfl

theorem char_toNat_ofNat_of_valid {n : Nat} (h : n.isValidChar) :
    (Char.ofNat n).toNat = n := by
  rw [Char.ofNat, dif_pos h]
  rfl

theorem toLower_eq (c : Char) :
    Char.toLower c = if c.toNat ≥ 65 ∧ c.toNat ≤ 90 then Char.ofNat (c.toNat + 32) else c :=
  rfl

theorem toLower_toLower (c : Char) : c.toLower.toLower = c.toLower := by
  rw [toLower_eq c]
  by_cases h : c.toNat ≥ 65 ∧ c.toNat ≤ 90
  · rw [if_pos h, toLower_eq,
      char_toNat_ofNat_of_valid (Or.inl (by omega : c.toNat + 32 < 55296)),
      if_neg (by omega)]
  · rw [if_neg h, toLower_eq, if_neg h]

theorem jsToLowerCase_idem (s : String) :
    jsToLowerCase (jsToLowerCase s) = jsToLowerCase s := by
  unfold jsToLowerCase
  apply congrArg
  rw [show (String.mk (s.data.map Char.toLower)).data = s.data.map Char.toLower from rfl,
    List.map_map]
  exact List.map_congr_left fun c _ => toLower_toLower c

/-! Shared helper lemmas. -/

theorem lookupColor_not_found {table : List (String × String)} {key : String}
    (h : ∀ q ∈ table, q.1 ≠ key) : lookupColor table key = "#4F46E5" := by
  unfold lookupColor
  rw [List.find?_eq_none.mpr fun q hq hbeq => h q hq (beq_iff_eq.mp hbeq)]

theorem dominant_foldl_spec (t : List (String × ℚ)) : ∀ (m : ℚ) (d : String),
    ((∀ p ∈ t, p.2 ≤ m) ∧ (t.foldl dominantStep (m, d)).2 = d) ∨
    (∃ pre e s suf, t = pre ++ (e, s) :: suf ∧ (t.foldl dominantStep (m, d)).2 = e ∧ m < s ∧
      (∀ p ∈ pre, p.2 < s) ∧ (∀ p ∈ suf, p.2 ≤ s)) := by
  induction t with
  | nil =>
    intro m d
    exact Or.inl ⟨by simp, rfl⟩
  | cons hd tl ih =>
    rcases hd with ⟨e0, s0⟩
    intro m d
    by_cases hlt : m < s0
    · have hstep : dominantStep (m, d) (e0, s0) = (s0, e0) := by
        simp [dominantStep, hlt]
      rw [List.foldl_cons, hstep]
      rcases ih s0 e0 with ⟨hall, hres⟩ | ⟨pre, e, s, suf, heq, hres, hm, hpre, hsuf⟩
      · exact Or.inr ⟨[], e0, s0, tl, by simp, hres, hlt, by simp, hall⟩
      · refine Or.inr ⟨(e0, s0) :: pre, e, s, suf, by simp [heq], hres,
          lt_trans hlt hm, ?_, hsuf⟩
        intro p hp
        rcases List.mem_cons.mp hp with rfl | hp'
        · exact hm
        · exact hpre p hp'
    · have hstep : dominantStep (m, d) (e0, s0) = (m, d) := by
        simp [dominantStep, hlt]
      rw [List.foldl_cons, hstep]
      rcases ih m d with ⟨hall, hres⟩ | ⟨pre, e, s, suf, heq, hres, hm, hpre, hsuf⟩
      · refine Or.inl ⟨?_, hres⟩
        intro p hp
        rcases List.mem_cons.mp hp with rfl | hp'
        · exact le_of_not_lt hlt
        · exact hall p hp'
      · refine Or.inr ⟨(e0, s0) :: pre, e, s, suf, by simp [heq], hres, hm, ?_, hsuf⟩
        intro p hp
        rcases List.mem_cons.mp hp with rfl | hp'
        · exact lt_of_le_of_lt (le_of_not_lt hlt) hm
        · exact hpre p hp'

theorem round_list_sum_bound (l : List (String × ℚ)) :
    |((l.map fun p => ((round (p.2 * (100 : ℚ)) : ℤ) : ℚ)).sum) - 100 * (l.map Prod.snd).sum|
      ≤ (l.length : ℚ) / 2 := by
  induction l with
  | nil => simp
  | cons hd tl ih =>
    simp only [List.map_cons, List.sum_cons, List.length_cons]
    have h1 : |((round (hd.2 * (100 : ℚ)) : ℤ) : ℚ) - hd.2 * 100| ≤ 1 / 2 := by
      rw [abs_sub_comm]
      exact abs_sub_round (hd.2 * 100)
    have key : (((round (hd.2 * (100 : ℚ)) : ℤ) : ℚ) +
          (tl.map fun p => ((round (p.2 * (100 : ℚ)) : ℤ) : ℚ)).sum) -
          100 * (hd.2 + (tl.map Prod.snd).sum)
        = (((round (hd.2 * (100 : ℚ)) : ℤ) : ℚ) - hd.2 * 100) +
          ((tl.map fun p => ((round (p.2 * (100 : ℚ)) : ℤ) : ℚ)).sum -
            100 * (tl.map Prod.snd).sum) := by ring
    rw [key]
    refine le_trans (abs_add _ _) ?_
    have hc : ((tl.length + 1 : ℕ) : ℚ) / 2 = 1 / 2 + (tl.length : ℚ) / 2 := by
      push_cast
      ring
    rw [hc]
    exact add_le_add h1 ih

/-- C1: the response generation path always yields non-empty reply text: the
tips lookup falls back to the Neutral tips for any unknown dominant label
(so `getTherapyTips` never returns an empty list), and when the backend
call fails `sendMessage` appends the fixed non-empty apology message as the
assistant reply instead of surfacing an error. -/
theorem response_generation_always_nonempty (e : String) (st : SessionState) (n : Nat)
    (h : TherapySession.canSend st = true) :
    getTherapyTips e ≠ [] ∧
    (TherapySession.sendMessage st n none).1.messages.getLast? =
      some { id := toString (n + 1), text := apologyText, sender := .ai, emotions := none } ∧
    apologyText ≠ "" := by
  refine ⟨?_, ?_, by decide⟩
  · unfold getTherapyTips
    cases hf : emotionTips.find? (fun p => p.1 == e) with
    | some p =>
      have hall : ∀ q ∈ emotionTips, q.2 ≠ [] := by decide
      exact hall p (List.mem_of_find?_eq_some hf)
    | none => decide
  · unfold TherapySession.sendMessage
    rw [if_pos h]
    simp

/-- Witness for C1 at the unknown label `ecstatic` and a concrete sendable state. -/
theorem response_generation_always_nonempty_witness :
    TherapySession.canSend ⟨[], "hello", none, false⟩ = true ∧
    (getTherapyTips "ecstatic" ≠ [] ∧
     (TherapySession.sendMessage ⟨[], "hello", none, false⟩ 5 none).1.messages.getLast? =
       some { id := toString (5 + 1), text := apologyText, sender := .ai, emotions := none } ∧
     apologyText ≠ "") :=
  ⟨by decide, response_generation_always_nonempty "ecstatic" _ 5 (by decide)⟩

/-- C2: on empty or whitespace-only input both `analyzeEmotions` functions
short-circuit to the canonical default distribution `{neutral: 0.9, calm: 0.1}`
without issuing an analysis request (the returned flag is `false`), and that
default is a fixed non-empty map. -/
theorem analyzeEmotions_whitespace_shortcircuit (text : String)
    (b₁ : Option (Option (List (String × ℚ)))) (b₂ : Option (List (String × ℚ)))
    (h : ∀ c ∈ text.data, isJsWhitespace c = true) :
    TherapySession.analyzeEmotions text b₁ = (defaultEmotions, false) ∧
    HomePage.analyzeEmotions text b₂ = (defaultEmotions, false) ∧
    defaultEmotions = [("neutral", 9 / 10), ("calm", 1 / 10)] ∧
    defaultEmotions ≠ [] := by
  have ht : jsTrim text = "" := jsTrim_eq_empty h
  refine ⟨?_, ?_, rfl, by simp [defaultEmotions]⟩
  · unfold TherapySession.analyzeEmotions
    rw [ht]
    simp
  · unfold HomePage.analyzeEmotions
    rw [ht]
    simp

/-- Witness for C2 at the whitespace-only input of two spaces. -/
theorem analyzeEmotions_whitespace_shortcircuit_witness :
    (∀ c ∈ ("  " : String).data, isJsWhitespace c = true) ∧
    (TherapySession.analyzeEmotions "  " none = (defaultEmotions, false) ∧
     HomePage.analyzeEmotions "  " none = (defaultEmotions, false) ∧
     defaultEmotions = [("neutral", 9 / 10), ("calm", 1 / 10)] ∧
     defaultEmotions ≠ []) :=
  ⟨by decide, analyzeEmotions_whitespace_shortcircuit "  " none none (by decide)⟩

/-- C3 counterexample: two orderings of the same tied score mapping yield
different dominant labels, so the tie between equal maximal scores is
broken by the iteration order of the mapping, not by any reliability-
weighted mass (no reading or reliability data reaches `getDominantEmotion`
at all), refuting the claim as stated. -/
theorem getDominantEmotion_tie_depends_on_order :
    getDominantEmotion [("angry", (1 : ℚ)/2), ("sad", (1 : ℚ)/2)] = "angry" ∧
    getDominantEmotion [("sad", (1 : ℚ)/2), ("angry", (1 : ℚ)/2)] = "sad" := by
  constructor <;> (simp only [getDominantEmotion, List.foldl, dominantStep]; norm_num)

/-- C3 amended: the dominant label is the first label in iteration order
whose score is positive and strictly greater than every earlier score —
that is, the earliest label attaining the maximal score when that maximum
is positive (ties between equal maximal scores go to the earlier entry);
when no score is positive the result is the fixed default `neutral`. -/
theorem getDominantEmotion_first_positive_max (l : List (String × ℚ)) :
    ((∀ p ∈ l, p.2 ≤ 0) ∧ getDominantEmotion l = "neutral") ∨
    (∃ pre e s suf, l = pre ++ (e, s) :: suf ∧ getDominantEmotion l = e ∧ 0 < s ∧
      (∀ p ∈ pre, p.2 < s) ∧ (∀ p ∈ suf, p.2 ≤ s)) :=
  dominant_foldl_spec l 0 "neutral"

/-- C4: an emotion name that overlaps no technique applicability list (after
lowercasing) yields the empty technique list; the query is a total function
and never raises. -/
theorem getTechniquesForEmotion_no_overlap_empty (s : String)
    (h : ∀ t ∈ therapyTechniques, jsToLowerCase s ∉ t.forEmotions) :
    getTechniquesForEmotion s = [] := by
  unfold getTechniquesForEmotion
  rw [List.filter_eq_nil_iff]
  intro t ht hcon
  rcases List.contains_iff_exists_mem_beq.mp hcon with ⟨x, hx, hbeq⟩
  exact h t ht (beq_iff_eq.mp hbeq ▸ hx)

/-- Witness for C4 at the label `happy`, which no stored technique lists. -/
theorem getTechniquesForEmotion_no_overlap_empty_witness :
    (∀ t ∈ therapyTechniques, jsToLowerCase "happy" ∉ t.forEmotions) ∧
    getTechniquesForEmotion "happy" = [] :=
  ⟨by decide, getTechniquesForEmotion_no_overlap_empty "happy" (by decide)⟩

/-- C5: the technique query is a pure function (determinism is definitional
in this embedding), and its result is always an order-preserving selection
from the static `therapyTechniques` array, which is strictly sorted by
technique id — so equal candidates appear in ascending id order and the
ordering is stable and reproducible. -/
theorem getTechniquesForEmotion_deterministic_ordered (s : String) :
    (getTechniquesForEmotion s).Sublist therapyTechniques ∧
    (getTechniquesForEmotion s).Pairwise (fun a b => a.id < b.id) := by
  have hpair : therapyTechniques.Pairwise (fun a b => a.id < b.id) := by
    simp only [therapyTechniques, List.pairwise_cons, List.mem_cons, List.not_mem_nil,
      String.lt_iff_toList_lt]
    refine ⟨?_, ?_, ?_, fun a ha => ha.elim, List.Pairwise.nil⟩ <;>
      (intro a ha; rcases ha with rfl | rfl | rfl | ha <;> first | decide | exact ha.elim)
  exact ⟨List.filter_sublist _, List.Pairwise.sublist (List.filter_sublist _) hpair⟩

/-- C6 counterexample: `formatEmotionData` does not renormalize.  For the
caller-observable distribution `{sad: 0.5}` the displayed percentages total
50, not 100, refuting the claim that every observable distribution is
normalized (equivalently that displayed percentages are renormalized to
total 100). -/
theorem formatEmotionData_sum_not_100 :
    ((formatEmotionData [("sad", (1 : ℚ)/2)]).map EmotionData.percentage).sum = 50 ∧
    (50 : ℤ) ≠ 100 := by
  constructor
  · simp only [formatEmotionData, List.map, List.sum_cons, List.sum_nil]
    norm_num [round_eq]
  · decide

/-- C6 amended: the formatting layer performs no renormalization — each
percentage is `round(score * 100)` of the score as given — so the displayed
total is close to 100 only when the input scores already sum to 1, in which
case it differs from 100 by at most `n/2` where `n` is the number of
labels (per-label rounding error). -/
theorem formatEmotionData_sum_within_rounding (l : List (String × ℚ))
    (h : (l.map Prod.snd).sum = 1) :
    |((((formatEmotionData l).map EmotionData.percentage).sum : ℤ) : ℚ) - 100|
      ≤ (l.length : ℚ) / 2 := by
  have hmap : (formatEmotionData l).map EmotionData.percentage
      = l.map fun p => round (p.2 * (100 : ℚ)) := by
    unfold formatEmotionData
    rw [List.map_map]
    rfl
  rw [hmap, Int.cast_list_sum, List.map_map]
  have hb := round_list_sum_bound l
  rw [h, mul_one] at hb
  exact hb

/-- Witness for C6 amended at the canonical default distribution. -/
theorem formatEmotionData_sum_within_rounding_witness :
    (([("neutral", (9 : ℚ)/10), ("calm", (1 : ℚ)/10)].map Prod.snd).sum = 1) ∧
    |((((formatEmotionData [("neutral", (9 : ℚ)/10), ("calm", (1 : ℚ)/10)]).map
          EmotionData.percentage).sum : ℤ) : ℚ) - 100|
      ≤ (([("neutral", (9 : ℚ)/10), ("calm", (1 : ℚ)/10)] : List (String × ℚ)).length : ℚ) / 2 :=
  ⟨by norm_num, formatEmotionData_sum_within_rounding _ (by norm_num)⟩

/-- C7: a request with no non-whitespace text and no audio attachment is
rejected before any analysis call: `sendMessage` returns the state
unchanged (in particular the message sequence is untouched) and reports
that no request was issued. -/
theorem sendMessage_rejects_empty_input (st : SessionState) (n : Nat)
    (b : Option BackendResponse) (h1 : jsTrim st.inputText = "") (h2 : st.audioBlob = none) :
    TherapySession.sendMessage st n b = (st, false) := by
  have hc : TherapySession.canSend st = false := by
    unfold TherapySession.canSend
    rw [h1, h2]
    simp
  simp [TherapySession.sendMessage, hc]

/-- Witness for C7 at a whitespace-only input with no recording. -/
theorem sendMessage_rejects_empty_input_witness :
    jsTrim ("   " : String) = "" ∧
    TherapySession.sendMessage ⟨[], "   ", none, false⟩ 7 none =
      ((⟨[], "   ", none, false⟩ : SessionState), false) :=
  ⟨by decide, sendMessage_rejects_empty_input _ 7 none (by decide) rfl⟩

/-- C8: every completed `sendMessage` run (one that passes the input guard)
appends exactly one user turn followed by exactly one assistant turn to the
message sequence, leaving all earlier turns as an unchanged prefix, so
insertion order is preserved; this holds on both the success and the
failure path of the backend call. -/
theorem sendMessage_appends_user_then_ai (st : SessionState) (n : Nat)
    (b : Option BackendResponse) (h : TherapySession.canSend st = true) :
    ∃ u a, (TherapySession.sendMessage st n b).1.messages = st.messages ++ [u, a] ∧
      u.sender = .user ∧ u.text = jsTrim st.inputText ∧ a.sender = .ai := by
  unfold TherapySession.sendMessage
  rw [if_pos h]
  cases b with
  | some r => exact ⟨_, _, rfl, rfl, rfl, rfl⟩
  | none => exact ⟨_, _, rfl, rfl, rfl, rfl⟩

/-- Witness for C8 at a concrete state and a successful backend response. -/
theorem sendMessage_appends_user_then_ai_witness :
    TherapySession.canSend ⟨[], "hello", none, false⟩ = true ∧
    ∃ u a, (TherapySession.sendMessage ⟨[], "hello", none, false⟩ 3
        (some ⟨"Take a slow breath", [("sad", 1)]⟩)).1.messages =
      (⟨[], "hello", none, false⟩ : SessionState).messages ++ [u, a] ∧
      u.sender = .user ∧
      u.text = jsTrim (⟨[], "hello", none, false⟩ : SessionState).inputText ∧
      a.sender = .ai :=
  ⟨by decide, sendMessage_appends_user_then_ai _ 3 _ (by decide)⟩

/-- C9 counterexample: `formatEmotionData` applied to the empty mapping
returns the empty list, not the fixed non-empty default display list (only
`formatEmotions` defaults), refuting the empty-mapping conjunct of the
claim as stated for `formatEmotionData`. -/
theorem formatEmotionData_empty_not_default :
    formatEmotionData [] = [] ∧ defaultDisplayEmotions ≠ [] :=
  ⟨rfl, by simp [defaultDisplayEmotions]⟩

/-- C9 amended: formatting is total over arbitrary label mappings; every
displayed row of `formatEmotionData` comes from an input entry with its
label kept (capitalised for `formatEmotions`), its percentage equal to
`round(score * 100)`, and the neutral color `#4F46E5` whenever the
lowercased label is outside the known color set; an empty or absent mapping
yields the fixed non-empty default display list in `formatEmotions`, while
`formatEmotionData` returns the empty list on an empty mapping. -/
theorem formatting_total_with_neutral_fallback :
    (∀ (l : List (String × ℚ)) (d : EmotionData), d ∈ formatEmotionData l →
      ∃ p ∈ l, d.emotion = p.1 ∧ d.percentage = round (p.2 * (100 : ℚ)) ∧
        ((∀ q ∈ emotionColors, q.1 ≠ jsToLowerCase p.1) → d.color = "#4F46E5")) ∧
    (∀ (l : List (String × ℚ)) (d : EmotionData), d ∈ formatEmotions (some l) → l ≠ [] →
      ∃ p ∈ l, d.emotion = jsCapitalize p.1 ∧ d.percentage = round (p.2 * (100 : ℚ)) ∧
        ((∀ q ∈ EMOTION_COLORS, q.1 ≠ jsToLowerCase p.1) → d.color = "#4F46E5")) ∧
    formatEmotions none = defaultDisplayEmotions ∧
    formatEmotions (some []) = defaultDisplayEmotions ∧
    defaultDisplayEmotions ≠ [] ∧
    formatEmotionData [] = [] := by
  refine ⟨?_, ?_, rfl, rfl, by simp [defaultDisplayEmotions], rfl⟩
  · intro l d hd
    rcases List.mem_map.mp hd with ⟨p, hp, rfl⟩
    exact ⟨p, hp, rfl, rfl, fun hall => lookupColor_not_found hall⟩
  · intro l d hd hne
    have hFne : (((l.map formatEmotionEntry).mergeSort
        (fun a b => decide (b.percentage ≤ a.percentage))).take 5).isEmpty = false := by
      rw [List.isEmpty_eq_false]
      intro htake
      have hlen := congrArg List.length htake
      rw [List.length_take, List.length_mergeSort, List.length_map, List.length_nil] at hlen
      have := List.length_pos.mpr hne
      omega
    have heq : formatEmotions (some l) = ((l.map formatEmotionEntry).mergeSort
        (fun a b => decide (b.percentage ≤ a.percentage))).take 5 := by
      show (if l.isEmpty then defaultDisplayEmotions
        else if (((l.map formatEmotionEntry).mergeSort
            (fun a b => decide (b.percentage ≤ a.percentage))).take 5).isEmpty
          then defaultDisplayEmotions
          else ((l.map formatEmotionEntry).mergeSort
            (fun a b => decide (b.percentage ≤ a.percentage))).take 5) = _
      rw [if_neg (by simp [hne]), if_neg (by simp [hFne])]
    rw [heq] at hd
    have hd2 : d ∈ (l.map formatEmotionEntry).mergeSort
        (fun a b => decide (b.percentage ≤ a.percentage)) := List.take_subset _ _ hd
    have hd3 : d ∈ l.map formatEmotionEntry := List.mem_mergeSort.mp hd2
    rcases List.mem_map.mp hd3 with ⟨p, hp, rfl⟩
    exact ⟨p, hp, rfl, rfl, fun hall => lookupColor_not_found hall⟩

/-- Witness for C9 amended at the unknown label `meh`, exercising the
neutral-color fallback through the first conjunct. -/
theorem formatting_total_with_neutral_fallback_witness :
    ∃ p ∈ [("meh", (1 : ℚ)/2)],
      ({ emotion := "meh", percentage := 50, color := "#4F46E5" } : EmotionData).emotion = p.1 ∧
      ({ emotion := "meh", percentage := 50, color := "#4F46E5" } : EmotionData).percentage =
        round (p.2 * (100 : ℚ)) ∧
      ((∀ q ∈ emotionColors, q.1 ≠ jsToLowerCase p.1) →
        ({ emotion := "meh", percentage := 50, color := "#4F46E5" } : EmotionData).color =
          "#4F46E5") :=
  formatting_total_with_neutral_fallback.1 [("meh", (1 : ℚ)/2)]
    { emotion := "meh", percentage := 50, color := "#4F46E5" }
    (by
      have hval : formatEmotionData [("meh", (1 : ℚ)/2)] =
          [{ emotion := "meh", percentage := 50, color := "#4F46E5" }] := by
        simp only [formatEmotionData, List.map, lookupColor]
        rw [show jsToLowerCase "meh" = "meh" from by decide]
        norm_num [round_eq]
        decide
      rw [hval]
      exact List.mem_singleton.mpr rfl)

/-- C10: technique lookup is case-insensitive in its emotion-name argument:
for every string `s` the result equals the result on the lowercased `s`,
because the argument is lowercased (idempotently) before being matched
against each applicability set. -/
theorem getTechniquesForEmotion_case_insensitive (s : String) :
    getTechniquesForEmotion s = getTechniquesForEmotion (jsToLowerCase s) := by
  unfold getTechniquesForEmotion
  rw [jsToLowerCase_idem]
